import Mathlib

/-!
Verification of the parallel build launcher in
src/packages/electron_app/build.py.

The script defines one function and an entry point:

  def BuildProcess(cmd: str):
      try:
          print(f"BUILDING {cmd}")
          check_call("pwd")
          check_call(cmd)
      except CalledProcessError:
          pass

  if __name__ == "__main__":
      with Pool(cpu_count()-1) as p:
          p.map(BuildProcess, [
              "cp -R dist ../electron_app/dist/renderer",
              "pushd ../web_app && npm run build &&  && popd"
          ])

We embed the script shallowly.  The operating system is modelled as a
function from spawn requests to outcomes; process creation, exit codes
and exceptions are explicit.  Two facts about the Python libraries used
by the script are part of the embedding, taken from CPython:

  * subprocess.check_call(args) with its default shell=False does not
    invoke a shell; args given as a string names the program directly.
    If the program cannot be spawned, Popen raises FileNotFoundError
    (an OSError); if the child exits with a nonzero status, check_call
    raises CalledProcessError; otherwise it returns 0.
  * multiprocessing.Pool(processes) raises ValueError when
    processes < 1.
  * Pool.map(f, it) is map_async(f, it).get(): every task is queued up
    front, each worker captures an exception raised by its task as
    that task outcome and continues with further tasks, the result
    becomes ready only once every task outcome has arrived
    (MapResult waits for all chunks), and then get() re-raises in the
    parent the first captured exception if there is one, otherwise it
    returns the list of per-task return values in input order.  Which
    captured exception arrives first depends on scheduling; the model
    takes the first in input order, and the theorems that touch the
    error path state only scheduling-independent facts (the raised
    exception is one captured from a completed task).
-/

namespace CompXBuild

/-- Outcome the operating system produces for one attempt to spawn a
child process: either the process cannot be created at all (for example
no executable of that name exists), or a child is created and later
exits with some status code. -/
inductive SpawnResult where
  | spawnFailure : SpawnResult
  | exited (code : Int) : SpawnResult
deriving DecidableEq, Repr

/-- The execution environment: given the shell flag passed to the
subprocess machinery and the args string, the outcome of the spawn
attempt.  build.py never sets the shell flag, so every call below
passes false. -/
def Env : Type := Bool → String → SpawnResult

/-- The Python exceptions that can arise in build.py. -/
inductive PyError where
  | calledProcessError (returncode : Int) (cmd : String) : PyError
  | fileNotFoundError (filename : String) : PyError
  | valueError (msg : String) : PyError
deriving DecidableEq, Repr

/-- Whether an exception is a CalledProcessError, the only class named
in the except clause of BuildProcess. -/
def PyError.isCalledProcessError : PyError → Bool
  | .calledProcessError _ _ => true
  | _ => false

/-- Observable actions of one BuildProcess call, in order: a write to
standard output, or an invocation of the subprocess machinery with the
given shell flag and args string. -/
inductive Event where
  | print (s : String) : Event
  | spawn (shell : Bool) (args : String) : Event
deriving DecidableEq, Repr

/-- subprocess.check_call(args) with the shell flag explicit.  From
CPython subprocess.py: run Popen(args).wait(); a spawn failure raises
FileNotFoundError; a nonzero return code raises
CalledProcessError(retcode, cmd); otherwise return 0. -/
def check_call (env : Env) (shell : Bool) (args : String) : Except PyError Int :=
  match env shell args with
  | .spawnFailure => .error (.fileNotFoundError args)
  | .exited code => if code = 0 then .ok 0 else .error (.calledProcessError code args)

/-- The body of the try block of BuildProcess: print the notice, run
check_call on "pwd", then run check_call on cmd.  Returns the trace of
events performed together with the outcome; an exception aborts the
rest of the body.  Every check_call call leaves a spawn event whether
or not it succeeds, recording that the subprocess machinery was
invoked at that point with that args string and shell flag. -/
def tryBody (env : Env) (cmd : String) : List Event × Except PyError Unit :=
  let ev0 := Event.print ("BUILDING " ++ cmd)
  let ev1 := Event.spawn false "pwd"
  match check_call env false "pwd" with
  | .error e => ([ev0, ev1], .error e)
  | .ok _ =>
    let ev2 := Event.spawn false cmd
    match check_call env false cmd with
    | .error e => ([ev0, ev1, ev2], .error e)
    | .ok _ => ([ev0, ev1, ev2], .ok ())

/-- BuildProcess(cmd): run the try body; a CalledProcessError is caught
by the except clause and discarded (the function then returns None,
modelled as Except.ok ()); any other exception propagates to the
caller. -/
def BuildProcess (env : Env) (cmd : String) : List Event × Except PyError Unit :=
  match tryBody env cmd with
  | (tr, .error (.calledProcessError _ _)) => (tr, .ok ())
  | (tr, r) => (tr, r)

/-- The two hardcoded command strings of the entry point, verbatim
(the second contains the dangling chain operator sequence). -/
def buildCommands : List String :=
  ["cp -R dist ../electron_app/dist/renderer",
   "pushd ../web_app && npm run build &&  && popd"]

/-- multiprocessing.Pool(processes): from CPython pool.py, a processes
argument below 1 raises ValueError("Number of processes must be at
least 1"); otherwise the pool is created with that many workers. -/
def Pool_mk (processes : Int) : Except PyError Nat :=
  if processes < 1 then .error (.valueError "Number of processes must be at least 1")
  else .ok processes.toNat

/-- The pool construction of the entry point: Pool(cpu_count() - 1),
where cpu_count is the detected hardware parallelism (a positive
integer in Python). -/
def poolWorkers (cpu_count : Nat) : Except PyError Nat :=
  Pool_mk ((cpu_count : Int) - 1)

/-- Worker side of p.map(BuildProcess, cmds): every element of cmds is
dispatched as its own task (for this two-element list the computed
chunk size is 1), each task is executed exactly once by some worker,
and the completed per-task outcomes arrive in input order.  A task
whose function raises has its exception captured by the worker as the
outcome of that task; the worker then continues with further tasks.
The parent-side collection, which re-raises a captured exception, is
mapGet below. -/
def pool_map (env : Env) (cmds : List String) : List (List Event × Except PyError Unit) :=
  cmds.map (BuildProcess env)

/-- The first exception captured by a worker among the completed task
outcomes, if any. -/
def firstWorkerError : List (List Event × Except PyError Unit) → Option PyError
  | [] => none
  | r :: rs =>
    match r.2 with
    | .error e => some e
    | .ok _ => firstWorkerError rs

/-- Parent side of p.map: MapResult.get().  It runs only once every
task outcome is complete; if some worker captured an exception, get()
re-raises one captured exception in the parent (the first to complete;
this model takes the first in input order), otherwise it returns the
list of per-task return values (each None) in input order. -/
def mapGet (rs : List (List Event × Except PyError Unit)) : Except PyError (List Unit) :=
  match firstWorkerError rs with
  | some e => .error e
  | none => .ok (rs.map (fun _ => ()))

/-- The whole dispatch call p.map(BuildProcess, cmds): first every
task runs to completion on the workers, then the parent collects.  The
pair keeps both the completed per-task outcomes and the value the call
returns or raises, the latter computed by mapGet from the former
only. -/
def dispatch (env : Env) (cmds : List String) :
    List (List Event × Except PyError Unit) × Except PyError (List Unit) :=
  let rs := pool_map env cmds
  (rs, mapGet rs)

/-- The entry point: construct the pool from cpu_count() - 1 workers
(a ValueError from the constructor propagates), then dispatch
BuildProcess over the two hardcoded commands; the call blocks until
all per-task outcomes are complete and then returns the collected
value or re-raises a worker-captured exception. -/
def main_run (env : Env) (cpu_count : Nat) : Except PyError (List Unit) :=
  match poolWorkers cpu_count with
  | .error e => .error e
  | .ok _ => (dispatch env buildCommands).2

/-- An environment in which every spawn attempt yields a child that
exits with status 0. -/
def envAllZero : Env := fun _ _ => .exited 0

/-- An environment in which the program named s yields a child exiting
with status c, and every other spawn attempt exits with status 0. -/
def envExit (s : String) (c : Int) : Env :=
  fun _ t => if t = s then .exited c else .exited 0

/-- An environment in which the program named s cannot be spawned at
all (no such executable), and every other spawn attempt exits with
status 0. -/
def envNoFile (s : String) : Env :=
  fun _ t => if t = s then .spawnFailure else .exited 0

/-- An environment in which every spawn attempt yields a child process
that runs and exits with some status (no spawn failures): the class of
outcomes reachable by the except clause. -/
def alwaysExits (env : Env) : Prop :=
  ∀ (sh : Bool) (s : String), ∃ c : Int, env sh s = .exited c

end CompXBuild

namespace CompXBuild

instance {ε α : Type} [DecidableEq ε] [DecidableEq α] : DecidableEq (Except ε α) := fun a b =>
  match a, b with
  | .error e₁, .error e₂ => decidable_of_iff (e₁ = e₂) (by simp)
  | .error _, .ok _ => isFalse (by simp)
  | .ok _, .error _ => isFalse (by simp)
  | .ok a₁, .ok a₂ => decidable_of_iff (a₁ = a₂) (by simp)

/-- The shell flag carried by an event: true only for a spawn event
whose spawn request set the shell flag. -/
def Event.usesShell : Event → Bool
  | .spawn sh _ => sh
  | .print _ => false

/-- Trace shape of one BuildProcess call: first the notice, then the
spawn of pwd, and the spawn of the target command follows exactly when
the pwd child exits with status 0. -/
theorem BuildProcess_trace (env : Env) (cmd : String) :
    (BuildProcess env cmd).1 =
      [Event.print ("BUILDING " ++ cmd), Event.spawn false "pwd"]
        ++ (if env false "pwd" = SpawnResult.exited 0 then [Event.spawn false cmd] else []) := by
  unfold BuildProcess tryBody check_call
  cases h : env false "pwd" with
  | spawnFailure => simp [h]
  | exited c =>
    by_cases hc : c = 0
    · subst hc
      simp only [h, if_pos rfl]
      cases h2 : env false cmd with
      | spawnFailure => simp
      | exited c2 => by_cases hc2 : c2 = 0 <;> simp [hc2]
    · simp [h, hc]

/-- BuildProcess on a command only queries the environment at pwd and
at the command itself, so two environments agreeing there give the
same trace and the same outcome. -/
theorem BuildProcess_env_agree (env1 env2 : Env) (cmd : String)
    (hpwd : env1 false "pwd" = env2 false "pwd")
    (hc : env1 false cmd = env2 false cmd) :
    BuildProcess env1 cmd = BuildProcess env2 cmd := by
  simp only [BuildProcess, tryBody, check_call, hpwd, hc]

/-- Whenever every spawn attempt yields a child that exits, whatever
the exit codes, BuildProcess returns None: the only exception such an
environment can produce is CalledProcessError, which is caught. -/
theorem BuildProcess_ok_of_exits (env : Env) (cmd : String)
    (h : alwaysExits env) :
    (BuildProcess env cmd).2 = Except.ok () := by
  obtain ⟨c0, h0⟩ := h false "pwd"
  obtain ⟨c1, h1⟩ := h false cmd
  unfold BuildProcess tryBody check_call
  rw [h0, h1]
  by_cases hc0 : c0 = 0 <;> by_cases hc1 : c1 = 0 <;> simp [hc0, hc1]

/-- C1, counterexample: at detected parallelism 1 the pool
construction does not yield max(1, 1 - 1) = 1 worker; Pool(0) raises
ValueError instead. -/
theorem single_core_pool_fails_not_one_worker : poolWorkers 1 ≠ Except.ok (max 1 (1 - 1)) := by
  decide

/-- C1, amended: for every detected parallelism of at least 2 the pool
has parallelism - 1 workers, which coincides with
max(1, parallelism - 1); at parallelism 1 the constructor receives 0
and raises ValueError, so the runner fails to start rather than using
one worker. -/
theorem workers_pred_of_parallelism (n : Nat) (h : 2 ≤ n) :
    poolWorkers n = Except.ok (n - 1) ∧ n - 1 = max 1 (n - 1) ∧
      poolWorkers 1 = Except.error (PyError.valueError "Number of processes must be at least 1") := by
  refine ⟨?_, by omega, by decide⟩
  unfold poolWorkers Pool_mk
  have h1 : ¬((n : Int) - 1 < 1) := by omega
  simp only [h1, if_false]
  congr 1
  omega

/-- Witness for workers_pred_of_parallelism at parallelism 2. -/
theorem workers_pred_of_parallelism_witness :
    poolWorkers 2 = Except.ok (2 - 1) ∧ 2 - 1 = max 1 (2 - 1) ∧
      poolWorkers 1 = Except.error (PyError.valueError "Number of processes must be at least 1") :=
  workers_pred_of_parallelism 2 (by decide)

/-- C2: for every command string, if the pwd step succeeded and the
child process executing the command is spawned and exits with any
status c, BuildProcess returns normally (None): a nonzero c raises
CalledProcessError, which the except clause catches, and no exception
reaches the caller. -/
theorem nonzero_exit_returns_normally (env : Env) (cmd : String) (c : Int)
    (hpwd : env false "pwd" = SpawnResult.exited 0)
    (hcmd : env false cmd = SpawnResult.exited c) :
    (BuildProcess env cmd).2 = Except.ok () := by
  unfold BuildProcess tryBody check_call
  rw [hpwd, hcmd]
  by_cases hc : c = 0 <;> simp [hc]

/-- Witness for nonzero_exit_returns_normally: a command whose child
exits with status 1. -/
theorem nonzero_exit_returns_normally_witness :
    (BuildProcess (envExit "false" 1) "false").2 = Except.ok () :=
  nonzero_exit_returns_normally (envExit "false" 1) "false" 1 (by decide) (by decide)

/-- C3: evaluation of the code at the failing input.  The hardcoded
command with the dangling chain operator is one of the dispatched
commands; since check_call is invoked without a shell, the whole
string names the program to spawn, no executable of that name exists,
the spawn fails with FileNotFoundError, and that exception is not
caught by the except CalledProcessError clause: BuildProcess does not
return normally, contradicting the claim that the failure is
swallowed. -/
theorem invalid_command_failure_escapes :
    (BuildProcess (envNoFile "pushd ../web_app && npm run build &&  && popd")
        "pushd ../web_app && npm run build &&  && popd").2
      = Except.error (PyError.fileNotFoundError "pushd ../web_app && npm run build &&  && popd")
    ∧ "pushd ../web_app && npm run build &&  && popd" ∈ buildCommands := by
  exact ⟨rfl, by simp [buildCommands]⟩

/-- C4: evaluation of the code at the failing input.  Every spawn
event BuildProcess performs carries shell flag false: the target
command string is handed to the subprocess machinery without shell
interpretation, so its compound operators are never interpreted by a
shell, contradicting the claim of child shell execution. -/
theorem target_spawned_without_shell :
    (BuildProcess envAllZero "pushd ../web_app && npm run build &&  && popd").1
      = [Event.print "BUILDING pushd ../web_app && npm run build &&  && popd",
         Event.spawn false "pwd",
         Event.spawn false "pushd ../web_app && npm run build &&  && popd"]
    ∧ ∀ e ∈ (BuildProcess envAllZero "pushd ../web_app && npm run build &&  && popd").1,
        e.usesShell = false := by
  decide

/-- C5, counterexample: for the first hardcoded command, the target is
spawned when the pwd diagnostic exits 0 but is not spawned when the
pwd diagnostic exits 1, so the result of the diagnostic is not
unconditionally discarded: its exit status decides whether step 3
runs. -/
theorem pwd_exit_status_gates_target :
    Event.spawn false "cp -R dist ../electron_app/dist/renderer"
        ∈ (BuildProcess envAllZero "cp -R dist ../electron_app/dist/renderer").1
    ∧ Event.spawn false "cp -R dist ../electron_app/dist/renderer"
        ∉ (BuildProcess (envExit "pwd" 1) "cp -R dist ../electron_app/dist/renderer").1
    ∧ "cp -R dist ../electron_app/dist/renderer" ∈ buildCommands := by
  decide

/-- C5, amended: only the printed output of the diagnostic is
discarded, not its result: check_call checks the exit status of the
pwd step, and the target command of step 3 is spawned exactly when the
pwd child exits with status 0; any other diagnostic outcome aborts the
body before step 3. -/
theorem diagnostic_status_checked_before_target (env : Env) (cmd : String) :
    (BuildProcess env cmd).1 =
      [Event.print ("BUILDING " ++ cmd), Event.spawn false "pwd"]
        ++ (if env false "pwd" = SpawnResult.exited 0 then [Event.spawn false cmd] else []) :=
  BuildProcess_trace env cmd

/-- C6: exactly one error kind is caught.  Whatever exception the try
body raises, BuildProcess discards it precisely when it is a
CalledProcessError (a child command exiting nonzero); every other
exception, such as the FileNotFoundError of a missing executable,
propagates out of BuildProcess unchanged. -/
theorem only_called_process_error_is_caught (env : Env) (cmd : String) (e : PyError)
    (h : (tryBody env cmd).2 = Except.error e) :
    (BuildProcess env cmd).2 =
      if e.isCalledProcessError then Except.ok () else Except.error e := by
  rcases htr : tryBody env cmd with ⟨tr, r⟩
  rw [htr] at h
  simp only at h
  subst h
  unfold BuildProcess
  rw [htr]
  cases e <;> simp [PyError.isCalledProcessError]

/-- Witness for only_called_process_error_is_caught: a missing pwd
executable raises FileNotFoundError, which is not caught. -/
theorem only_called_process_error_is_caught_witness :
    (BuildProcess (envNoFile "pwd") "ls").2 =
      if (PyError.fileNotFoundError "pwd").isCalledProcessError then Except.ok ()
      else Except.error (PyError.fileNotFoundError "pwd") :=
  only_called_process_error_is_caught (envNoFile "pwd") "ls"
    (PyError.fileNotFoundError "pwd") (by decide)

/-- C7: the dispatch produces exactly one completed BuildProcess
attempt per command of the input list, and the attempt at position i
depends only on the behaviour of the environment at pwd and at that
command itself: any environment agreeing there, however the other
commands fail or succeed under it, yields the same attempt, so no
other command blocks or alters this one. -/
theorem each_command_attempted_once_independently (env1 env2 : Env) (cmds : List String)
    (i : Nat) (c : String) (hi : cmds.get? i = some c)
    (hpwd : env1 false "pwd" = env2 false "pwd")
    (hc : env1 false c = env2 false c) :
    (pool_map env1 cmds).length = cmds.length ∧
    (pool_map env1 cmds).get? i = some (BuildProcess env2 c) := by
  constructor
  · simp [pool_map]
  · rw [pool_map, List.get?_map, hi]
    exact congrArg some (BuildProcess_env_agree env1 env2 c hpwd hc)

/-- Witness for each_command_attempted_once_independently on the
hardcoded command list at position 0. -/
theorem each_command_attempted_once_independently_witness :
    (pool_map envAllZero buildCommands).length = buildCommands.length ∧
    (pool_map envAllZero buildCommands).get? 0
      = some (BuildProcess (envExit "npm" 7) "cp -R dist ../electron_app/dist/renderer") :=
  each_command_attempted_once_independently envAllZero (envExit "npm" 7) buildCommands 0
    "cp -R dist ../electron_app/dist/renderer" (by decide) (by decide) (by decide)

/-- C8: for every environment and command, the trace of BuildProcess
starts with the progress notice, followed by the spawn of the pwd
diagnostic, followed by at most the spawn of the target command: the
notice precedes every child process and the three steps occur in the
stated order. -/
theorem notice_precedes_child_processes (env : Env) (cmd : String) :
    ∃ rest, (BuildProcess env cmd).1
        = Event.print ("BUILDING " ++ cmd) :: Event.spawn false "pwd" :: rest
      ∧ (rest = [] ∨ rest = [Event.spawn false cmd]) := by
  rw [BuildProcess_trace]
  by_cases h : env false "pwd" = SpawnResult.exited 0
  · exact ⟨[Event.spawn false cmd], by simp [h], Or.inr rfl⟩
  · exact ⟨[], by simp [h], Or.inl rfl⟩

/-- An exception re-raised by the parent-side collection is one that a
worker captured from a completed task outcome. -/
theorem firstWorkerError_mem (rs : List (List Event × Except PyError Unit)) (e : PyError)
    (h : firstWorkerError rs = some e) :
    ∃ r ∈ rs, r.2 = Except.error e := by
  induction rs with
  | nil => simp [firstWorkerError] at h
  | cons r rs ih =>
    rcases hr : r.2 with e2 | u
    · rw [firstWorkerError, hr] at h
      obtain rfl : e2 = e := by simpa using h
      exact ⟨r, by simp, hr⟩
    · rw [firstWorkerError, hr] at h
      obtain ⟨r2, hr2, hr2e⟩ := ih h
      exact ⟨r2, by simp [hr2], hr2e⟩

/-- C9: whenever the pool is constructed (parallelism at least 2), the
dispatch call blocks until all dispatched commands have finished:
every command of the list has its fully completed BuildProcess
outcome, trace included, among the completed per-task outcomes, one
per command; the value the entry point returns or re-raises is the one
the parent collects from exactly those completed outcomes; and even
when that value is a re-raised exception, it is one a worker captured
from a completed task, so no command execution remains in flight,
orphaned or detached. -/
theorem runner_awaits_all_before_returning (env : Env) (cpu_count : Nat)
    (h : 2 ≤ cpu_count) :
    ((dispatch env buildCommands).1.length = buildCommands.length
      ∧ ∀ c ∈ buildCommands, BuildProcess env c ∈ (dispatch env buildCommands).1)
    ∧ main_run env cpu_count = mapGet (dispatch env buildCommands).1
    ∧ ∀ e : PyError, main_run env cpu_count = Except.error e →
        ∃ r ∈ (dispatch env buildCommands).1, r.2 = Except.error e := by
  have hpool : main_run env cpu_count = mapGet (dispatch env buildCommands).1 := by
    unfold main_run poolWorkers Pool_mk
    have h1 : ¬((cpu_count : Int) - 1 < 1) := by omega
    simp [h1, dispatch]
  refine ⟨⟨by simp [dispatch, pool_map], ?_⟩, hpool, ?_⟩
  · intro c hc
    exact List.mem_map_of_mem (BuildProcess env) hc
  · intro e he
    rw [hpool] at he
    unfold mapGet at he
    rcases hf : firstWorkerError (dispatch env buildCommands).1 with _ | e2
    · rw [hf] at he
      simp at he
    · rw [hf] at he
      obtain rfl : e2 = e := by simpa using he
      exact firstWorkerError_mem _ _ hf

/-- Witness for runner_awaits_all_before_returning at parallelism 2. -/
theorem runner_awaits_all_before_returning_witness :
    ((dispatch envAllZero buildCommands).1.length = buildCommands.length
      ∧ ∀ c ∈ buildCommands, BuildProcess envAllZero c ∈ (dispatch envAllZero buildCommands).1)
    ∧ main_run envAllZero 2 = mapGet (dispatch envAllZero buildCommands).1
    ∧ ∀ e : PyError, main_run envAllZero 2 = Except.error e →
        ∃ r ∈ (dispatch envAllZero buildCommands).1, r.2 = Except.error e :=
  runner_awaits_all_before_returning envAllZero 2 (by decide)

/-- C10: determinism of the per-command results.  In every environment
whose spawn attempts all yield exiting children (the caught class of
outcomes), the per-command results are the list of None values in
input order; hence two runs over the same command list, under any two
such environments and so under any exit codes and any interleaving of
the parallel executions, yield identical per-command results. -/
theorem results_identical_across_runs (env1 env2 : Env) (cmds : List String)
    (h1 : alwaysExits env1) (h2 : alwaysExits env2) :
    (pool_map env1 cmds).map Prod.snd = List.replicate cmds.length (Except.ok ())
    ∧ (pool_map env1 cmds).map Prod.snd = (pool_map env2 cmds).map Prod.snd := by
  have key : ∀ env : Env, alwaysExits env →
      (pool_map env cmds).map Prod.snd = List.replicate cmds.length (Except.ok ()) := by
    intro env he
    rw [pool_map, List.map_map, List.eq_replicate_iff]
    refine ⟨by simp, ?_⟩
    intro b hb
    obtain ⟨c, _, hcb⟩ := List.mem_map.mp hb
    rw [← hcb]
    exact BuildProcess_ok_of_exits env c he
  exact ⟨key env1 h1, (key env1 h1).trans (key env2 h2).symm⟩

/-- Witness for results_identical_across_runs: two concrete
environments with different exit codes give the same result list on
the hardcoded commands. -/
theorem results_identical_across_runs_witness :
    (pool_map envAllZero buildCommands).map Prod.snd
        = List.replicate buildCommands.length (Except.ok ())
    ∧ (pool_map envAllZero buildCommands).map Prod.snd
        = (pool_map (envExit "npm" 7) buildCommands).map Prod.snd :=
  results_identical_across_runs envAllZero (envExit "npm" 7) buildCommands
    (fun _ _ => ⟨0, rfl⟩)
    (fun sh s => by
      by_cases hs : s = "npm"
      · exact ⟨7, by simp [envExit, hs]⟩
      · exact ⟨0, by simp [envExit, hs]⟩)

end CompXBuild
